import Mathlib

/-!
Shallow embedding of the DCF valuation engine of `dcf_model.py`
(class `DCFModel`), over exact rationals.  Python numbers are modelled
as `ℚ`; Python `None` as `Option`; fields of the returned dicts as
structure fields.  Definitions follow the source line by line.
-/

namespace DCF

/-- Company snapshot (`company_data` dict): all numeric fields. -/
structure Company where
  shares_outstanding : ℚ
  current_stock_price : ℚ
  total_debt : ℚ
  cash : ℚ
deriving DecidableEq

/-- Historical quarterly series (`historical_data` dict). -/
structure Historical where
  operating_cash_flow : List ℚ
  capex : List ℚ
  net_income : List ℚ
deriving DecidableEq

/-- Assumptions dict with the keys the engine reads. -/
structure Assumptions where
  risk_free_rate : ℚ
  beta : ℚ
  market_risk_premium : ℚ
  cost_of_debt : ℚ
  tax_rate : ℚ
  perpetual_growth_rate : ℚ
  revenue_growth_rates : List ℚ
  forecast_years : ℕ
  esg_adjustment_enabled : Bool
  esg_strength_bps : ℚ
  esg_threshold_good : ℚ
  esg_threshold_bad : ℚ
  stress_enabled : Bool
  stress_supply_chain : Bool
  stress_carbon_tax : Bool
  supply_chain_revenue_hit_pct : ℚ
  supply_chain_cogs_increase_pct : ℚ
  carbon_intensity : ℚ
  carbon_tax_rate : ℚ
deriving DecidableEq

/-- ESG data dict; `total_esg` may be absent (`None`). -/
structure ESGData where
  total_esg : Option ℚ
deriving DecidableEq

/-- Return record of `DCFModel.calculate_wacc`. -/
structure WaccResult where
  wacc : ℚ
  cost_of_equity : ℚ
  ke_before_esg : ℚ
  ke_after_esg : ℚ
  after_tax_cost_debt : ℚ
  equity_weight : ℚ
  debt_weight : ℚ
  market_cap : ℚ
  net_debt : ℚ
  enterprise_value : ℚ
deriving DecidableEq

/-- ESG piecewise-linear adjustment computed inside `calculate_wacc`
(lines 945-952 of `dcf_model.py`): `-strength` for a score at or below
the good threshold, `+strength` at or above the bad threshold, linear
interpolation in between, with `strength = esg_strength_bps / 10000`. -/
def esgAdjustment (a : Assumptions) (score : ℚ) : ℚ :=
  let strength := a.esg_strength_bps / 10000
  if score ≤ a.esg_threshold_good then -strength
  else if a.esg_threshold_bad ≤ score then strength
  else -strength + 2 * strength *
    ((score - a.esg_threshold_good) / (a.esg_threshold_bad - a.esg_threshold_good))

/-- Embeds `DCFModel.calculate_wacc` (lines 926-1019).  The ESG tilt applies
only when it is enabled, a score is present, and the bad threshold is
strictly above the good one; the tilted cost of equity is
`max(ke + adjustment, rf, 0)`.  Weights fall back to all-equity when
enterprise value is not positive. -/
def calculate_wacc (c : Company) (a : Assumptions) (esg : ESGData) : WaccResult :=
  let rf := a.risk_free_rate
  let ke_before := rf + a.beta * a.market_risk_premium
  let ke_after :=
    match esg.total_esg with
    | none => ke_before
    | some score =>
      if a.esg_adjustment_enabled ∧ a.esg_threshold_good < a.esg_threshold_bad then
        max (max (ke_before + esgAdjustment a score) rf) 0
      else ke_before
  let market_cap := c.shares_outstanding * c.current_stock_price
  let net_debt := c.total_debt - c.cash
  let enterprise_value := market_cap + net_debt
  let equity_weight := if 0 < enterprise_value then market_cap / enterprise_value else 1
  let debt_weight := if 0 < enterprise_value then net_debt / enterprise_value else 0
  let after_tax := a.cost_of_debt * (1 - a.tax_rate)
  { wacc := equity_weight * ke_after + debt_weight * after_tax
    cost_of_equity := ke_after
    ke_before_esg := ke_before
    ke_after_esg := ke_after
    after_tax_cost_debt := after_tax
    equity_weight := equity_weight
    debt_weight := debt_weight
    market_cap := market_cap
    net_debt := net_debt
    enterprise_value := enterprise_value }

/-- Return record of `DCFModel.calculate_historical_metrics`. -/
structure HistMetrics where
  quarterly_fcf : List ℚ
  avg_quarterly_fcf : ℚ
  ttm_fcf : ℚ
  ttm_operating_cf : ℚ
  ttm_capex : ℚ
  ttm_net_income : ℚ
deriving DecidableEq

/-- Python negative slice `xs[-n:]`: the whole list when `n = 0`
(Python treats `-0` as `0`), otherwise the last `n` elements. -/
def pyLastSlice (n : ℕ) (xs : List ℚ) : List ℚ :=
  if n = 0 then xs else xs.drop (xs.length - n)

/-- Embeds `DCFModel.calculate_historical_metrics` (lines 1021-1058).  The
per-quarter FCF list is `ocf[i] + capex[i]`; the Python loop runs over
`range(len(ocf))` indexing both lists, which for the equal-length
series every claim assumes is `List.zipWith (+)`.  TTM sums run over
the last `min(4, len)` quarters, each guarded by the source's
emptiness checks. -/
def calculate_historical_metrics (h : Historical) : HistMetrics :=
  let fcf := List.zipWith (· + ·) h.operating_cash_flow h.capex
  let ttm_length := min 4 fcf.length
  let ttm_fcf := if fcf = [] then 0 else (pyLastSlice ttm_length fcf).sum
  let avg_fcf := if 0 < ttm_length then ttm_fcf / (ttm_length : ℚ) else 0
  let ttm_operating_cf :=
    if h.operating_cash_flow = [] then 0
    else (pyLastSlice ttm_length h.operating_cash_flow).sum
  let ttm_capex := if h.capex = [] then 0 else (pyLastSlice ttm_length h.capex).sum
  let ttm_net_income :=
    if h.net_income = [] then 0 else (pyLastSlice ttm_length h.net_income).sum
  { quarterly_fcf := fcf
    avg_quarterly_fcf := avg_fcf
    ttm_fcf := ttm_fcf
    ttm_operating_cf := ttm_operating_cf
    ttm_capex := ttm_capex
    ttm_net_income := ttm_net_income }

/-- Growth-rate lookup of `DCFModel.project_cash_flows` (lines
1066-1069): the year's rate when in range, else the last rate, else
the `0.03` default for an empty schedule. -/
def growthForYear (rates : List ℚ) (year : ℕ) : ℚ :=
  if year < rates.length then rates.getD year 0
  else match rates.getLast? with
    | some r => r
    | none => 0.03

/-- Embeds `DCFModel.project_cash_flows` (lines 1060-1078): year 1 grows the
TTM baseline, later years grow the previous projected year. -/
def project_cash_flows (a : Assumptions) (base_fcf : ℚ) : List ℚ :=
  (List.range a.forecast_years).foldl
    (fun projected year =>
      let growth := growthForYear a.revenue_growth_rates year
      let fcf :=
        if year = 0 then base_fcf * (1 + growth)
        else projected.getLastD 0 * (1 + growth)
      projected ++ [fcf]) []

/-- Return triple of `DCFModel.apply_stress_scenarios`. -/
structure StressOut where
  stressed : List ℚ
  carbon_costs : List ℚ
  notes : List String
deriving DecidableEq

/-- Embeds `DCFModel.apply_stress_scenarios` (lines 1080-1111).  A no-op copy
when `stress_enabled` is false; the supply-chain shock multiplies the
first two years, the carbon tax subtracts a cost proportional to the
BASE year value from the (possibly shocked) series. -/
def apply_stress_scenarios (a : Assumptions) (projected : List ℚ) : StressOut :=
  let stressed := projected
  let carbon := projected.map (fun _ => (0 : ℚ))
  if ¬ a.stress_enabled then ⟨stressed, carbon, []⟩
  else
    let step1 :=
      if a.stress_supply_chain then
        let mult := 1 - a.supply_chain_revenue_hit_pct - a.supply_chain_cogs_increase_pct
        (stressed.mapIdx (fun i x => if i < 2 then x * mult else x),
          ["Supply chain shock applied to years 1-2."])
      else (stressed, ([] : List String))
    if a.stress_carbon_tax then
      let costs := projected.map (fun f => f * a.carbon_intensity * a.carbon_tax_rate)
      ⟨(step1.1.zip costs).map (fun p => p.1 - p.2), costs,
        step1.2 ++ ["Carbon tax uses FCF as revenue proxy for simplicity."]⟩
    else ⟨step1.1, carbon, step1.2⟩

/-- Effective growth of `DCFModel.calculate_terminal_value` (lines
1115-1118): the stated perpetual growth, halved to `wacc * 0.5` when
`wacc <= g`. -/
def terminalGrowth (a : Assumptions) (wacc : ℚ) : ℚ :=
  if wacc ≤ a.perpetual_growth_rate then wacc * 0.5 else a.perpetual_growth_rate

/-- Embeds `DCFModel.calculate_terminal_value` (lines 1113-1133): Gordon
growth on the effective growth rate. -/
def calculate_terminal_value (a : Assumptions) (final_fcf wacc : ℚ) : ℚ :=
  final_fcf * (1 + terminalGrowth a wacc) / (wacc - terminalGrowth a wacc)

/-- Present-value accumulation `fcf / (1 + wacc) ** year` over
`enumerate(series, start)`, as in lines 1139-1141 and 1208-1211. -/
def pvAux (wacc : ℚ) : ℕ → List ℚ → ℚ
  | _, [] => 0
  | year, f :: rest => f / (1 + wacc) ^ year + pvAux wacc (year + 1) rest

/-- Sum of discounted projected cash flows, years numbered from 1. -/
def pvOfSeries (wacc : ℚ) (fcfs : List ℚ) : ℚ := pvAux wacc 1 fcfs

/-- Embeds `DCFModel._calc_intrinsic_for_sensitivity` (lines 1135-1152):
`None` for an empty series, non-positive wacc, `wacc <= growth`, or
non-positive share count; otherwise the per-share value with the
cell's raw growth (no halving). -/
def calcIntrinsicForSensitivity (c : Company) (projected : List ℚ)
    (wacc growth : ℚ) : Option ℚ :=
  if projected = [] ∨ wacc ≤ 0 ∨ wacc ≤ growth then none
  else
    let pv_fcf := pvOfSeries wacc projected
    let terminal_value := projected.getLastD 0 * (1 + growth) / (wacc - growth)
    let pv_terminal := terminal_value / (1 + wacc) ^ projected.length
    let enterprise_value := pv_fcf + pv_terminal
    let equity_value := enterprise_value - c.total_debt + c.cash
    if c.shares_outstanding ≤ 0 then none
    else some (equity_value / c.shares_outstanding)

/-- Return record of `DCFModel.calculate_sensitivity_matrix`. -/
structure SensitivityGrid where
  wacc_range : List ℚ
  growth_range : List ℚ
  matrix : List (List (Option ℚ))
  base_wacc : ℚ
  base_growth : ℚ
  min_value : Option ℚ
  max_value : Option ℚ
deriving DecidableEq

/-- Embeds `DCFModel.calculate_sensitivity_matrix` (lines 1154-1195): `none`
models the early `return {}`; otherwise the 5×5 grid over the fixed
wacc multipliers and growth offsets. -/
def calculate_sensitivity_matrix (c : Company) (a : Assumptions)
    (projected : List ℚ) (base_wacc : ℚ) : Option SensitivityGrid :=
  if projected = [] ∨ base_wacc ≤ 0 then none
  else
    let base_growth := a.perpetual_growth_rate
    let wacc_range :=
      [base_wacc * 0.75, base_wacc * 0.9, base_wacc, base_wacc * 1.1, base_wacc * 1.25]
    let growth_range :=
      [base_growth - 0.01, base_growth - 0.005, base_growth,
        base_growth + 0.005, base_growth + 0.01]
    let matrix := wacc_range.map (fun w =>
      growth_range.map (fun g => calcIntrinsicForSensitivity c projected w g))
    let valid := matrix.flatten.filterMap id
    some { wacc_range := wacc_range
           growth_range := growth_range
           matrix := matrix
           base_wacc := base_wacc
           base_growth := base_growth
           min_value := valid.min?
           max_value := valid.max? }

/-- Per-share intrinsic value of the main valuation path (lines
1208-1223, also repeated verbatim for the stressed series at lines
1244-1257): discount the series, add the discounted terminal value
(with the halving policy), net out debt and cash, divide by shares
when positive else return 0. -/
def intrinsicFromSeries (c : Company) (a : Assumptions)
    (projected : List ℚ) (wacc : ℚ) : ℚ :=
  let pv_fcf := pvOfSeries wacc projected
  let terminal_value :=
    if projected = [] then 0 else calculate_terminal_value a (projected.getLastD 0) wacc
  let pv_terminal_value :=
    if projected = [] then 0 else terminal_value / (1 + wacc) ^ projected.length
  let enterprise_value_dcf := pv_fcf + pv_terminal_value
  let equity_value := enterprise_value_dcf - c.total_debt + c.cash
  if 0 < c.shares_outstanding then equity_value / c.shares_outstanding else 0

/-- Record `stress_test` sub-record assembled at lines 1263-1276. -/
structure StressTest where
  enabled : Bool
  supply_chain_shock : Bool
  carbon_tax : Bool
  base_intrinsic_value_per_share : ℚ
  stressed_intrinsic_value_per_share : Option ℚ
  delta_pct : Option ℚ
  base_projected_fcf : List ℚ
  stressed_projected_fcf : List ℚ
  carbon_costs : List ℚ
  notes : List String
deriving DecidableEq

/-- Results record of `DCFModel.calculate_dcf_valuation`.  The `irr`
field of the source is a real-valued root (`** (1/years)`) outside the
rational fragment and outside every claim; it is not embedded. -/
structure DCFResults where
  wacc_results : WaccResult
  historical_metrics : HistMetrics
  projected_fcf : List ℚ
  pv_fcf : List ℚ
  terminal_value : ℚ
  pv_terminal_value : ℚ
  enterprise_value_dcf : ℚ
  equity_value : ℚ
  intrinsic_value_per_share : ℚ
  current_market_value : ℚ
  upside_pct : ℚ
  ev_fcf_multiple : ℚ
  stress_test : StressTest
  sensitivity : Option SensitivityGrid
deriving DecidableEq

/-- Embeds `DCFModel.calculate_dcf_valuation` (lines 1197-1300): the full
orchestrated pipeline. -/
def calculate_dcf_valuation (c : Company) (h : Historical) (a : Assumptions)
    (esg : ESGData) : DCFResults :=
  let wacc_results := calculate_wacc c a esg
  let wacc := wacc_results.wacc
  let hist := calculate_historical_metrics h
  let base_fcf := hist.ttm_fcf
  let projected := project_cash_flows a base_fcf
  let pv_fcf := projected.mapIdx (fun i f => f / (1 + wacc) ^ (i + 1))
  let terminal_value :=
    if projected = [] then 0 else calculate_terminal_value a (projected.getLastD 0) wacc
  let pv_terminal_value :=
    if projected = [] then 0 else terminal_value / (1 + wacc) ^ projected.length
  let enterprise_value_dcf := pvOfSeries wacc projected + pv_terminal_value
  let equity_value := enterprise_value_dcf - c.total_debt + c.cash
  let intrinsic := intrinsicFromSeries c a projected wacc
  let cmv := c.current_stock_price
  let upside := if 0 < cmv then (intrinsic - cmv) / cmv * 100 else 0
  let ev_fcf_multiple :=
    if 0 < hist.ttm_fcf then wacc_results.enterprise_value / hist.ttm_fcf else 0
  let st := apply_stress_scenarios a projected
  let stressed_intrinsic : Option ℚ :=
    if a.stress_enabled ∧ st.stressed ≠ [] then
      some (intrinsicFromSeries c a st.stressed wacc)
    else none
  let delta_pct : Option ℚ :=
    match stressed_intrinsic with
    | some s =>
      if a.stress_enabled ∧ intrinsic ≠ 0 then some ((s - intrinsic) / intrinsic * 100)
      else none
    | none => none
  { wacc_results := wacc_results
    historical_metrics := hist
    projected_fcf := projected
    pv_fcf := pv_fcf
    terminal_value := terminal_value
    pv_terminal_value := pv_terminal_value
    enterprise_value_dcf := enterprise_value_dcf
    equity_value := equity_value
    intrinsic_value_per_share := intrinsic
    current_market_value := cmv
    upside_pct := upside
    ev_fcf_multiple := ev_fcf_multiple
    stress_test :=
      { enabled := a.stress_enabled
        supply_chain_shock := a.stress_supply_chain
        carbon_tax := a.stress_carbon_tax
        base_intrinsic_value_per_share := intrinsic
        stressed_intrinsic_value_per_share := stressed_intrinsic
        delta_pct := delta_pct
        base_projected_fcf := projected
        stressed_projected_fcf := st.stressed
        carbon_costs := if a.stress_carbon_tax then st.carbon_costs else []
        notes := st.notes }
    sensitivity := calculate_sensitivity_matrix c a projected wacc }

/-! Concrete sample inputs used to instantiate the theorems. -/

/-- Sample assumptions matching the spec's concrete scenario (growth
schedule, horizon, perpetual growth); stress disabled. -/
def exAssumptions : Assumptions :=
  { risk_free_rate := 0.03
    beta := 1
    market_risk_premium := 0.05
    cost_of_debt := 0.05
    tax_rate := 0.25
    perpetual_growth_rate := 0.025
    revenue_growth_rates := [0.06, 0.055, 0.05, 0.045, 0.04]
    forecast_years := 5
    esg_adjustment_enabled := true
    esg_strength_bps := 50
    esg_threshold_good := 20
    esg_threshold_bad := 40
    stress_enabled := false
    stress_supply_chain := false
    stress_carbon_tax := false
    supply_chain_revenue_hit_pct := 0.15
    supply_chain_cogs_increase_pct := 0.10
    carbon_intensity := 0.02
    carbon_tax_rate := 0.01 }

/-- Sample company: one share at 10, no debt, no cash. -/
def exCompany : Company :=
  { shares_outstanding := 1
    current_stock_price := 10
    total_debt := 0
    cash := 0 }

/-- Sample five-quarter history (capex pre-signed negative). -/
def exHistorical : Historical :=
  { operating_cash_flow := [10, 20, 30, 40, 50]
    capex := [-1, -2, -3, -4, -5]
    net_income := [5, 5, 5, 5, 5] }

/-- Sample ESG record whose score sits exactly on the good threshold. -/
def exESG : ESGData := { total_esg := some 20 }

/-- ESG record with no score. -/
def exESGNone : ESGData := { total_esg := none }

/-- C1: calculate_terminal_value computes the Gordon-growth value
`finalFCF * (1 + g) / (wacc - g)` with `g` the stated perpetual growth
when `wacc > perpetual_growth_rate`, and with the substituted growth
`wacc * 0.5` whenever `perpetual_growth_rate >= wacc`. -/
theorem C1_terminal_growth_policy (a : Assumptions) (final_fcf wacc : ℚ) :
    calculate_terminal_value a final_fcf wacc =
      if a.perpetual_growth_rate < wacc then
        final_fcf * (1 + a.perpetual_growth_rate) / (wacc - a.perpetual_growth_rate)
      else
        final_fcf * (1 + wacc * 0.5) / (wacc - wacc * 0.5) := by
  unfold calculate_terminal_value terminalGrowth
  rcases le_or_lt wacc a.perpetual_growth_rate with hle | hlt
  · rw [if_pos hle, if_neg (not_lt.mpr hle)]
  · rw [if_neg (not_le.mpr hlt), if_pos hlt]

/-- C2 counterexample: at `wacc = 0` the effective growth is halved to
`0` and the Gordon denominator `wacc - g` is exactly `0`, so the
Python code divides by zero (raises); and at `wacc = -1` with a
non-negative final FCF of `1` the terminal value is negative, so the
computation is not total and the halving does not prevent negative
terminal values on degenerate inputs. -/
theorem C2_counterexample :
    (0 : ℚ) - terminalGrowth exAssumptions 0 = 0 ∧
    calculate_terminal_value exAssumptions 1 (-1) < 0 := by
  constructor
  · norm_num [terminalGrowth, exAssumptions]
  · norm_num [calculate_terminal_value, terminalGrowth, exAssumptions]

/-- C2 (amended): for `wacc ≠ 0` the effective Gordon denominator is
nonzero (so no division by zero occurs), and whenever the halving
substitution applies (`perpetual_growth_rate ≥ wacc`) with a strictly
positive wacc, the terminal value of a non-negative final FCF is
non-negative. -/
theorem C2_terminal_safety (a : Assumptions) (f wacc : ℚ)
    (hw : wacc ≠ 0) (hf : 0 ≤ f) :
    wacc - terminalGrowth a wacc ≠ 0 ∧
    (wacc ≤ a.perpetual_growth_rate → 0 < wacc →
      0 ≤ calculate_terminal_value a f wacc) := by
  unfold calculate_terminal_value terminalGrowth
  by_cases hcase : wacc ≤ a.perpetual_growth_rate
  · rw [if_pos hcase]
    have hden : wacc - wacc * 0.5 = wacc * 0.5 := by ring
    constructor
    · rw [hden]
      exact mul_ne_zero hw (by norm_num)
    · intro _ hpos
      have hhalf : (0 : ℚ) < wacc * 0.5 := by positivity
      rw [hden]
      apply div_nonneg _ hhalf.le
      have : (0 : ℚ) ≤ 1 + wacc * 0.5 := by linarith
      exact mul_nonneg hf this
  · rw [if_neg hcase]
    have hlt : a.perpetual_growth_rate < wacc := not_le.mp hcase
    exact ⟨sub_ne_zero.mpr (ne_of_gt hlt), fun hc _ => absurd hc hcase⟩

/-- C2 witness: concrete instance with `wacc = 0.02` below the
perpetual growth `0.025`, final FCF `1`. -/
theorem C2_witness :
    (0.02 : ℚ) - terminalGrowth exAssumptions 0.02 ≠ 0 ∧
    0 ≤ calculate_terminal_value exAssumptions 1 0.02 :=
  ⟨(C2_terminal_safety exAssumptions 1 0.02 (by norm_num) (by norm_num)).1,
   (C2_terminal_safety exAssumptions 1 0.02 (by norm_num) (by norm_num)).2
     (by norm_num [exAssumptions]) (by norm_num)⟩

/-- C9 counterexample: on the spec's concrete scenario the year-5 FCF
is exactly `102.09094896`, which is not approximately `101.95` (it is
off by more than `0.14`), and the terminal value is exactly
`1744.0537114`, not approximately `1741.7` (off by more than `2.35`). -/
theorem C9_counterexample :
    (project_cash_flows exAssumptions 80).getLastD 0 = 102.09094896 ∧
    ¬ |(project_cash_flows exAssumptions 80).getLastD 0 - 101.95| ≤ 0.14 ∧
    calculate_terminal_value exAssumptions
      ((project_cash_flows exAssumptions 80).getLastD 0) 0.085 = 1744.0537114 ∧
    ¬ |calculate_terminal_value exAssumptions
        ((project_cash_flows exAssumptions 80).getLastD 0) 0.085 - 1741.7| ≤ 2.35 := by
  have hproj : project_cash_flows exAssumptions 80 =
      [84.8, 89.464, 93.9372, 98.164374, 102.09094896] := by
    norm_num [project_cash_flows, growthForYear, exAssumptions, List.range_succ]
  rw [hproj]
  norm_num [calculate_terminal_value, terminalGrowth, exAssumptions, abs_le]

/-- C9 (amended): on the concrete scenario `ttm_fcf = 80`, growth
schedule `[0.06, 0.055, 0.05, 0.045, 0.04]`, 5 years, `wacc = 0.085`,
`g = 0.025`: year-1 FCF is `84.8`, the projected series is exactly
`[84.8, 89.464, 93.9372, 98.164374, 102.09094896]` (year-5 FCF
`≈ 102.09`), and the terminal value is `1744.0537114 ≈ 1744.05`. -/
theorem C9_concrete_scenario :
    project_cash_flows exAssumptions 80 =
      [84.8, 89.464, 93.9372, 98.164374, 102.09094896] ∧
    calculate_terminal_value exAssumptions 102.09094896 0.085 = 1744.0537114 := by
  constructor
  · norm_num [project_cash_flows, growthForYear, exAssumptions, List.range_succ]
  · norm_num [calculate_terminal_value, terminalGrowth, exAssumptions]

/-- The tilted cost of equity returned by `calculate_wacc` when a
score is present and the tilt gate passes. -/
lemma ke_after_esg_eq (c : Company) (a : Assumptions) (esg : ESGData) (s : ℚ)
    (hs : esg.total_esg = some s) (hen : a.esg_adjustment_enabled = true)
    (hthr : a.esg_threshold_good < a.esg_threshold_bad) :
    (calculate_wacc c a esg).ke_after_esg =
      max (max (a.risk_free_rate + a.beta * a.market_risk_premium + esgAdjustment a s)
        a.risk_free_rate) 0 := by
  simp [calculate_wacc, hs, hen, hthr]

/-- C5: with the tilt gate open (enabled, score present, bad > good
threshold), a score at the good threshold gets the full `-strength`
adjustment, a score at or above the bad threshold gets `+strength`, a
score strictly between gets the linear interpolation, and the tilted
cost of equity is the CAPM value plus the adjustment floored at
`max(risk_free_rate, 0)`; with no score present the cost of equity is
the CAPM value unchanged. -/
theorem C5_esg_tilt (c : Company) (a : Assumptions) (esg : ESGData)
    (hen : a.esg_adjustment_enabled = true)
    (hthr : a.esg_threshold_good < a.esg_threshold_bad) :
    (esg.total_esg = none →
      (calculate_wacc c a esg).ke_after_esg =
        a.risk_free_rate + a.beta * a.market_risk_premium) ∧
    (∀ s, esg.total_esg = some s →
      (s = a.esg_threshold_good → esgAdjustment a s = -(a.esg_strength_bps / 10000)) ∧
      (a.esg_threshold_bad ≤ s → esgAdjustment a s = a.esg_strength_bps / 10000) ∧
      (a.esg_threshold_good < s → s < a.esg_threshold_bad →
        esgAdjustment a s = -(a.esg_strength_bps / 10000) +
          2 * (a.esg_strength_bps / 10000) *
            ((s - a.esg_threshold_good) / (a.esg_threshold_bad - a.esg_threshold_good))) ∧
      (calculate_wacc c a esg).ke_after_esg =
        max (max (a.risk_free_rate + a.beta * a.market_risk_premium + esgAdjustment a s)
          a.risk_free_rate) 0 ∧
      a.risk_free_rate ≤ (calculate_wacc c a esg).ke_after_esg ∧
      0 ≤ (calculate_wacc c a esg).ke_after_esg) := by
  constructor
  · intro hnone
    simp [calculate_wacc, hnone]
  · intro s hs
    have hmax := ke_after_esg_eq c a esg s hs hen hthr
    refine ⟨?_, ?_, ?_, hmax, ?_, ?_⟩
    · intro he
      unfold esgAdjustment
      rw [if_pos (le_of_eq he)]
    · intro hbad
      unfold esgAdjustment
      rw [if_neg (not_le.mpr (lt_of_lt_of_le hthr hbad)), if_pos hbad]
    · intro hlo hhi
      unfold esgAdjustment
      rw [if_neg (not_le.mpr hlo), if_neg (not_le.mpr hhi)]
    · rw [hmax]
      exact le_trans (le_max_right _ _) (le_max_left _ _)
    · rw [hmax]
      exact le_max_right _ _

/-- C5 witness: score `20` exactly at the good threshold of the
sample assumptions receives the full negative adjustment `-0.005`,
and the tilted cost of equity is non-negative. -/
theorem C5_witness :
    esgAdjustment exAssumptions 20 = -(exAssumptions.esg_strength_bps / 10000) ∧
    0 ≤ (calculate_wacc exCompany exAssumptions exESG).ke_after_esg :=
  ⟨((C5_esg_tilt exCompany exAssumptions exESG rfl
      (by norm_num [exAssumptions])).2 20 rfl).1 rfl,
   ((C5_esg_tilt exCompany exAssumptions exESG rfl
      (by norm_num [exAssumptions])).2 20 rfl).2.2.2.2.2⟩

/-- C6: the WACC weights are `market_cap / enterprise_value` and
`net_debt / enterprise_value` summing to one when enterprise value is
positive, and the all-equity fallback `1, 0` otherwise. -/
theorem C6_weights (c : Company) (a : Assumptions) (esg : ESGData) :
    (0 < (calculate_wacc c a esg).enterprise_value →
      (calculate_wacc c a esg).equity_weight =
        (calculate_wacc c a esg).market_cap / (calculate_wacc c a esg).enterprise_value ∧
      (calculate_wacc c a esg).debt_weight =
        (calculate_wacc c a esg).net_debt / (calculate_wacc c a esg).enterprise_value ∧
      (calculate_wacc c a esg).equity_weight + (calculate_wacc c a esg).debt_weight = 1) ∧
    (¬ 0 < (calculate_wacc c a esg).enterprise_value →
      (calculate_wacc c a esg).equity_weight = 1 ∧
      (calculate_wacc c a esg).debt_weight = 0) := by
  constructor
  · intro hev
    have hev2 : 0 < c.shares_outstanding * c.current_stock_price +
        (c.total_debt - c.cash) := by
      simpa [calculate_wacc] using hev
    refine ⟨by simp [calculate_wacc, hev2], by simp [calculate_wacc, hev2], ?_⟩
    simp only [calculate_wacc, if_pos hev2]
    rw [div_add_div_same, div_self (ne_of_gt hev2)]
  · intro hev
    have hev2 : ¬ 0 < c.shares_outstanding * c.current_stock_price +
        (c.total_debt - c.cash) := by
      simpa [calculate_wacc] using hev
    exact ⟨by simp [calculate_wacc, hev2], by simp [calculate_wacc, hev2]⟩

/-- C6 witness: for the sample company the enterprise value is `10`
and the weights sum to one. -/
theorem C6_witness :
    (calculate_wacc exCompany exAssumptions exESG).equity_weight +
      (calculate_wacc exCompany exAssumptions exESG).debt_weight = 1 :=
  ((C6_weights exCompany exAssumptions exESG).1
    (by norm_num [calculate_wacc, exCompany])).2.2

/-- Sum of an elementwise sum of equal-length lists splits into the
two sums. -/
lemma sum_zipWith_add : ∀ (l1 l2 : List ℚ), l1.length = l2.length →
    (List.zipWith (· + ·) l1 l2).sum = l1.sum + l2.sum := by
  intro l1
  induction l1 with
  | nil =>
    intro l2 hlen
    have : l2 = [] := List.eq_nil_of_length_eq_zero hlen.symm
    simp [this]
  | cons a t ih =>
    intro l2 hlen
    cases l2 with
    | nil => simp at hlen
    | cons b u =>
      simp only [List.zipWith, List.sum_cons]
      rw [ih u (by simpa using hlen)]
      ring

/-- The TTM free cash flow is the sum of the last `min(4, length)`
operating cash flows plus the (signed) capex over the same window. -/
lemma ttm_fcf_eq (h : Historical)
    (hc : h.capex.length = h.operating_cash_flow.length) :
    (calculate_historical_metrics h).ttm_fcf =
      (pyLastSlice (min 4 h.operating_cash_flow.length) h.operating_cash_flow).sum +
      (pyLastSlice (min 4 h.operating_cash_flow.length) h.capex).sum := by
  rcases eq_or_ne h.operating_cash_flow [] with hL | hL
  · have hK : h.capex = [] := by
      have : h.capex.length = 0 := by rw [hc, hL]; rfl
      exact List.eq_nil_of_length_eq_zero this
    simp [calculate_historical_metrics, pyLastSlice, hL, hK]
  · have hlen : 0 < h.operating_cash_flow.length := List.length_pos.mpr hL
    have hflen : (List.zipWith (· + ·) h.operating_cash_flow h.capex).length =
        h.operating_cash_flow.length := by
      rw [List.length_zipWith, hc, min_self]
    have hfne : List.zipWith (· + ·) h.operating_cash_flow h.capex ≠ [] := by
      intro he
      rw [he] at hflen
      simp only [List.length_nil] at hflen
      omega
    have hw : min 4 h.operating_cash_flow.length ≠ 0 := by omega
    simp only [calculate_historical_metrics, if_neg hfne, hflen]
    rw [pyLastSlice, pyLastSlice, pyLastSlice, if_neg hw, if_neg hw, if_neg hw, hflen,
      List.drop_zipWith, hc]
    apply sum_zipWith_add
    simp [hc]

/-- C7: for equal-length quarterly series, the TTM window is the last
`min(4, length)` quarters: with at least four quarters `ttm_fcf` is
the sum over the last four of `ocf + capex`; a length-0 series gives
all-zero TTM outputs; and the average quarterly FCF is
`ttm_fcf / window` when the window is non-empty and `0` otherwise. -/
theorem C7_historical_metrics (h : Historical)
    (hc : h.capex.length = h.operating_cash_flow.length)
    (hn : h.net_income.length = h.operating_cash_flow.length) :
    (calculate_historical_metrics h).ttm_fcf =
      (pyLastSlice (min 4 h.operating_cash_flow.length) h.operating_cash_flow).sum +
      (pyLastSlice (min 4 h.operating_cash_flow.length) h.capex).sum ∧
    (4 ≤ h.operating_cash_flow.length →
      (calculate_historical_metrics h).ttm_fcf =
        (pyLastSlice 4 h.operating_cash_flow).sum + (pyLastSlice 4 h.capex).sum) ∧
    (h.operating_cash_flow = [] →
      (calculate_historical_metrics h).ttm_fcf = 0 ∧
      (calculate_historical_metrics h).ttm_operating_cf = 0 ∧
      (calculate_historical_metrics h).ttm_capex = 0 ∧
      (calculate_historical_metrics h).ttm_net_income = 0) ∧
    (0 < min 4 h.operating_cash_flow.length →
      (calculate_historical_metrics h).avg_quarterly_fcf =
        (calculate_historical_metrics h).ttm_fcf /
          ((min 4 h.operating_cash_flow.length : ℕ) : ℚ)) ∧
    (h.operating_cash_flow.length = 0 →
      (calculate_historical_metrics h).avg_quarterly_fcf = 0) := by
  have hflen : (List.zipWith (· + ·) h.operating_cash_flow h.capex).length =
      h.operating_cash_flow.length := by
    rw [List.length_zipWith, hc, min_self]
  refine ⟨ttm_fcf_eq h hc, ?_, ?_, ?_, ?_⟩
  · intro h4
    have := ttm_fcf_eq h hc
    rwa [min_eq_left h4] at this
  · intro hL
    have hK : h.capex = [] := by
      have : h.capex.length = 0 := by rw [hc, hL]; rfl
      exact List.eq_nil_of_length_eq_zero this
    have hN : h.net_income = [] := by
      have : h.net_income.length = 0 := by rw [hn, hL]; rfl
      exact List.eq_nil_of_length_eq_zero this
    refine ⟨?_, ?_, ?_, ?_⟩ <;> simp [calculate_historical_metrics, hL, hK, hN]
  · intro hpos
    simp only [calculate_historical_metrics, hflen]
    rw [if_pos hpos]
  · intro hzero
    have hL : h.operating_cash_flow = [] := List.eq_nil_of_length_eq_zero hzero
    have hK : h.capex = [] := by
      have : h.capex.length = 0 := by rw [hc, hL]; rfl
      exact List.eq_nil_of_length_eq_zero this
    simp [calculate_historical_metrics, hL, hK]

/-- C7 witness: the sample five-quarter history has TTM FCF
`126 = (20+30+40+50) + (-2-3-4-5)` over the last four quarters. -/
theorem C7_witness :
    (calculate_historical_metrics exHistorical).ttm_fcf =
      (pyLastSlice 4 exHistorical.operating_cash_flow).sum +
      (pyLastSlice 4 exHistorical.capex).sum :=
  (C7_historical_metrics exHistorical rfl rfl).2.1 (by norm_num [exHistorical])

/-- Spec-side description of a sensitivity cell, written from the
claim's words: the cell is `None` whenever `wacc <= growth` or
`wacc <= 0` or `shares_outstanding <= 0` (no growth-halving
safeguard), and otherwise the intrinsic value per share recomputed
from the base projected series with that wacc/growth pair. -/
def sensitivityCellSpec (c : Company) (projected : List ℚ) (w g : ℚ) : Option ℚ :=
  if w ≤ g ∨ w ≤ 0 ∨ c.shares_outstanding ≤ 0 then none
  else some ((pvOfSeries w projected +
      projected.getLastD 0 * (1 + g) / (w - g) / (1 + w) ^ projected.length -
      c.total_debt + c.cash) / c.shares_outstanding)

/-- For a non-empty base series the code's sensitivity cell agrees
with the spec-side description. -/
lemma calcIntrinsic_eq_spec (c : Company) (projected : List ℚ)
    (hne : projected ≠ []) (w g : ℚ) :
    calcIntrinsicForSensitivity c projected w g = sensitivityCellSpec c projected w g := by
  unfold calcIntrinsicForSensitivity sensitivityCellSpec
  by_cases h1 : w ≤ 0
  · simp [hne, h1]
  by_cases h2 : w ≤ g
  · simp [hne, h1, h2]
  by_cases h3 : c.shares_outstanding ≤ 0
  · simp [hne, h1, h2, h3]
  · simp [hne, h1, h2, h3]

/-- C3: for a non-empty base series and positive base WACC the grid
exists, the WACC axis is exactly `{0.75, 0.9, 1, 1.1, 1.25}` times
the base WACC, the growth axis is exactly the base perpetual growth
plus `{-0.01, -0.005, 0, 0.005, 0.01}`, and every cell follows the
spec-side cell rule (invalid cells are `None`, the rest recompute the
per-share value with the cell's raw growth). -/
theorem C3_sensitivity_matrix (c : Company) (a : Assumptions)
    (projected : List ℚ) (base_wacc : ℚ)
    (hne : projected ≠ []) (hw : 0 < base_wacc) :
    ∃ grid, calculate_sensitivity_matrix c a projected base_wacc = some grid ∧
      grid.wacc_range = [base_wacc * 0.75, base_wacc * 0.9, base_wacc,
        base_wacc * 1.1, base_wacc * 1.25] ∧
      grid.growth_range = [a.perpetual_growth_rate - 0.01,
        a.perpetual_growth_rate - 0.005, a.perpetual_growth_rate,
        a.perpetual_growth_rate + 0.005, a.perpetual_growth_rate + 0.01] ∧
      grid.matrix = grid.wacc_range.map (fun w =>
        grid.growth_range.map (fun g => sensitivityCellSpec c projected w g)) := by
  have hguard : ¬ (projected = [] ∨ base_wacc ≤ 0) := by
    push_neg
    exact ⟨hne, hw⟩
  unfold calculate_sensitivity_matrix
  rw [if_neg hguard]
  refine ⟨_, rfl, rfl, rfl, ?_⟩
  simp only [calcIntrinsic_eq_spec c projected hne]

/-- C3 witness: concrete grid for the sample inputs with base WACC
`0.1` and a one-year series `[100]`. -/
theorem C3_witness :
    ∃ grid, calculate_sensitivity_matrix exCompany exAssumptions [100] (1/10) = some grid ∧
      grid.wacc_range = [(1:ℚ)/10 * 0.75, (1:ℚ)/10 * 0.9, (1:ℚ)/10,
        (1:ℚ)/10 * 1.1, (1:ℚ)/10 * 1.25] ∧
      grid.growth_range = [exAssumptions.perpetual_growth_rate - 0.01,
        exAssumptions.perpetual_growth_rate - 0.005, exAssumptions.perpetual_growth_rate,
        exAssumptions.perpetual_growth_rate + 0.005, exAssumptions.perpetual_growth_rate + 0.01] ∧
      grid.matrix = grid.wacc_range.map (fun w =>
        grid.growth_range.map (fun g => sensitivityCellSpec exCompany [100] w g)) :=
  C3_sensitivity_matrix exCompany exAssumptions [100] (1/10)
    (by norm_num) (by norm_num)

/-- C4 counterexample: with the all-zero projected series `[0]` (and
`g = 0.025 < w1 = 0.05 < w2 = 0.1`, everything else fixed) both
intrinsic values are `0`, so raising the WACC does NOT strictly
decrease the intrinsic value per share; the claim fails without a
positivity assumption on the projected cash flows. -/
theorem C4_counterexample :
    ¬ (intrinsicFromSeries exCompany exAssumptions [0] (1/10) <
       intrinsicFromSeries exCompany exAssumptions [0] (1/20)) := by
  norm_num [intrinsicFromSeries, pvOfSeries, pvAux, calculate_terminal_value,
    terminalGrowth, exCompany, exAssumptions]

/-- Discounted sums are antitone in the discount rate on series of
non-negative cash flows. -/
lemma pvAux_antitone (w1 w2 : ℚ) (hw1 : 0 < 1 + w1) (h12 : w1 ≤ w2) :
    ∀ (l : List ℚ), (∀ x ∈ l, 0 ≤ x) → ∀ y : ℕ, pvAux w2 y l ≤ pvAux w1 y l := by
  intro l
  induction l with
  | nil =>
    intro _ y
    simp [pvAux]
  | cons f rest ih =>
    intro hl y
    have hf : 0 ≤ f := hl f (List.mem_cons_self f rest)
    have hpow1 : (0 : ℚ) < (1 + w1) ^ y := pow_pos hw1 y
    have hpow12 : (1 + w1) ^ y ≤ (1 + w2) ^ y :=
      pow_le_pow_left₀ hw1.le (by linarith) y
    have hterm : f / (1 + w2) ^ y ≤ f / (1 + w1) ^ y :=
      div_le_div_of_nonneg_left hf hpow1 hpow12
    have hrest := ih (fun x hx => hl x (List.mem_cons_of_mem f hx)) (y + 1)
    simp only [pvAux]
    exact add_le_add hterm hrest

/-- The discounted Gordon terminal term strictly decreases in the
discount rate when the final cash flow is positive. -/
lemma tv_term_strict_anti (L g w1 w2 : ℚ) (n : ℕ) (hL : 0 < L)
    (hg1 : -1 < g) (hgw : g < w1) (h12 : w1 < w2) :
    L * (1 + g) / (w2 - g) / (1 + w2) ^ n <
      L * (1 + g) / (w1 - g) / (1 + w1) ^ n := by
  have hw1 : (0 : ℚ) < 1 + w1 := by linarith
  have hnum : (0 : ℚ) < L * (1 + g) := by
    apply mul_pos hL
    linarith
  have hP1 : (0 : ℚ) < (1 + w1) ^ n := pow_pos hw1 n
  have hD1 : (0 : ℚ) < (w1 - g) * (1 + w1) ^ n := mul_pos (by linarith) hP1
  have hD12 : (w1 - g) * (1 + w1) ^ n < (w2 - g) * (1 + w2) ^ n := by
    calc (w1 - g) * (1 + w1) ^ n
        < (w2 - g) * (1 + w1) ^ n := mul_lt_mul_of_pos_right (by linarith) hP1
      _ ≤ (w2 - g) * (1 + w2) ^ n :=
          mul_le_mul_of_nonneg_left (pow_le_pow_left₀ hw1.le (by linarith) n)
            (by linarith)
  rw [div_div, div_div]
  exact div_lt_div_of_pos_left hnum hD1 hD12

/-- C4 (amended): holding the company, assumptions, and a projected
series of non-negative cash flows with a strictly positive final year
fixed, and with the perpetual growth above `-1`, any two WACC values
`g < w1 < w2` give a strictly smaller intrinsic value per share at
`w2` than at `w1` (for a positive share count). -/
theorem C4_wacc_monotonicity (c : Company) (a : Assumptions)
    (projected : List ℚ) (w1 w2 : ℚ)
    (hall : ∀ x ∈ projected, 0 ≤ x)
    (hlast : 0 < projected.getLastD 0)
    (hgm1 : -1 < a.perpetual_growth_rate)
    (hgw : a.perpetual_growth_rate < w1)
    (h12 : w1 < w2)
    (hs : 0 < c.shares_outstanding) :
    intrinsicFromSeries c a projected w2 < intrinsicFromSeries c a projected w1 := by
  have hne : projected ≠ [] := by
    intro he
    rw [he] at hlast
    simp [List.getLastD] at hlast
  have hw1 : (0 : ℚ) < 1 + w1 := by linarith
  have hn : projected.length ≠ 0 := by
    simpa [List.length_eq_zero] using hne
  have htg1 : terminalGrowth a w1 = a.perpetual_growth_rate := by
    unfold terminalGrowth
    rw [if_neg (not_le.mpr hgw)]
  have htg2 : terminalGrowth a w2 = a.perpetual_growth_rate := by
    unfold terminalGrowth
    rw [if_neg (not_le.mpr (lt_trans hgw h12))]
  have hpv : pvOfSeries w2 projected ≤ pvOfSeries w1 projected :=
    pvAux_antitone w1 w2 hw1 h12.le projected hall 1
  have htv : calculate_terminal_value a (projected.getLastD 0) w2 /
        (1 + w2) ^ projected.length <
      calculate_terminal_value a (projected.getLastD 0) w1 /
        (1 + w1) ^ projected.length := by
    unfold calculate_terminal_value
    rw [htg1, htg2]
    exact tv_term_strict_anti (projected.getLastD 0) a.perpetual_growth_rate
      w1 w2 projected.length hlast hgm1 hgw h12
  simp only [intrinsicFromSeries, if_neg hne, if_pos hs]
  apply div_lt_div_of_pos_right _ hs
  linarith

/-- C4 witness: for the sample company and a one-year series `[100]`,
the WACC pair `0.05 < 0.1` (both above the `0.025` growth) strictly
lowers the intrinsic value. -/
theorem C4_witness :
    intrinsicFromSeries exCompany exAssumptions [100] (1/10) <
      intrinsicFromSeries exCompany exAssumptions [100] (1/20) :=
  C4_wacc_monotonicity exCompany exAssumptions [100] (1/20) (1/10)
    (by norm_num) (by norm_num) (by norm_num [exAssumptions])
    (by norm_num [exAssumptions]) (by norm_num) (by norm_num [exCompany])

/-- With both overlays off, the stress engine returns the base series
unchanged and no notes, whatever `stress_enabled` is. -/
lemma stress_noop (a : Assumptions) (projected : List ℚ)
    (hsc : a.stress_supply_chain = false) (hct : a.stress_carbon_tax = false) :
    (apply_stress_scenarios a projected).stressed = projected ∧
    (apply_stress_scenarios a projected).notes = [] := by
  unfold apply_stress_scenarios
  by_cases he : a.stress_enabled
  · simp [he, hsc, hct]
  · simp [he]

/-- C8 counterexample: for the sample inputs with `stress_enabled`
false (both overlays therefore disabled), the orchestrator reports
`delta_pct = None`, not `0`. -/
theorem C8_counterexample :
    (calculate_dcf_valuation exCompany exHistorical exAssumptions exESG).stress_test.delta_pct
      ≠ some 0 ∧
    (calculate_dcf_valuation exCompany exHistorical exAssumptions exESG).stress_test.delta_pct
      = none := by
  have hnone :
      (calculate_dcf_valuation exCompany exHistorical exAssumptions exESG).stress_test.delta_pct
        = none := by
    simp [calculate_dcf_valuation, exAssumptions]
  exact ⟨by rw [hnone]; exact Option.noConfusion, hnone⟩

/-- C8 (amended): with both overlays disabled the stressed series is
the base series and the notes are empty; the reported `delta_pct` is
`None` when `stress_enabled` is false, and it is `0` when
`stress_enabled` is true and the base intrinsic value is nonzero on a
non-empty projection. -/
theorem C8_stress_disabled_noop (c : Company) (h : Historical) (a : Assumptions)
    (e : ESGData)
    (hsc : a.stress_supply_chain = false) (hct : a.stress_carbon_tax = false) :
    (calculate_dcf_valuation c h a e).stress_test.stressed_projected_fcf =
      (calculate_dcf_valuation c h a e).stress_test.base_projected_fcf ∧
    (calculate_dcf_valuation c h a e).stress_test.notes = [] ∧
    (a.stress_enabled = false →
      (calculate_dcf_valuation c h a e).stress_test.delta_pct = none) ∧
    (a.stress_enabled = true →
      (calculate_dcf_valuation c h a e).projected_fcf ≠ [] →
      (calculate_dcf_valuation c h a e).intrinsic_value_per_share ≠ 0 →
      (calculate_dcf_valuation c h a e).stress_test.delta_pct = some 0) := by
  have hstr := stress_noop a
    (project_cash_flows a (calculate_historical_metrics h).ttm_fcf) hsc hct
  refine ⟨hstr.1, hstr.2, ?_, ?_⟩
  · intro hen
    simp [calculate_dcf_valuation, hen]
  · intro hen hne hnz
    simp only [calculate_dcf_valuation] at hne hnz ⊢
    simp [hen, hstr.1, hne, hnz]

/-- Stress-enabled variant of the sample assumptions with a one-year
horizon and flat growth, both overlays still disabled. -/
def exAssumptionsStress : Assumptions :=
  { exAssumptions with
    stress_enabled := true
    forecast_years := 1
    revenue_growth_rates := [0] }

/-- One-quarter history with unit FCF. -/
def exHistorical1 : Historical :=
  { operating_cash_flow := [1], capex := [0], net_income := [0] }

/-- C8 witness: with stress enabled but both overlays disabled, the
sample valuation reports `delta_pct = 0`. -/
theorem C8_witness :
    (calculate_dcf_valuation exCompany exHistorical1 exAssumptionsStress exESG).stress_test.delta_pct
      = some 0 :=
  (C8_stress_disabled_noop exCompany exHistorical1 exAssumptionsStress exESG rfl rfl).2.2.2
    rfl
    (by simp only [calculate_dcf_valuation]
        norm_num [project_cash_flows, growthForYear, calculate_historical_metrics,
          pyLastSlice, exAssumptionsStress, exAssumptions, exHistorical1, List.range_succ])
    (by simp only [calculate_dcf_valuation]
        norm_num [intrinsicFromSeries, pvOfSeries, pvAux, calculate_terminal_value,
          terminalGrowth, calculate_wacc, esgAdjustment, calculate_historical_metrics,
          pyLastSlice, project_cash_flows, growthForYear, exCompany, exAssumptionsStress,
          exAssumptions, exHistorical1, exESG, List.range_succ])

/-- At the unperturbed point (base WACC, base growth) the sensitivity
cell computation agrees with the main valuation path, provided the
WACC is positive, above the growth rate, shares are positive and the
series is non-empty. -/
lemma center_cell_eq (c : Company) (a : Assumptions) (projected : List ℚ) (wacc : ℚ)
    (hne : projected ≠ []) (hw : 0 < wacc)
    (hgw : a.perpetual_growth_rate < wacc) (hs : 0 < c.shares_outstanding) :
    calcIntrinsicForSensitivity c projected wacc a.perpetual_growth_rate =
      some (intrinsicFromSeries c a projected wacc) := by
  have hcond : ¬ (projected = [] ∨ wacc ≤ 0 ∨ wacc ≤ a.perpetual_growth_rate) := by
    push_neg
    exact ⟨hne, hw, hgw⟩
  simp only [calcIntrinsicForSensitivity, intrinsicFromSeries, calculate_terminal_value,
    terminalGrowth, if_neg hcond, if_neg (not_le.mpr hs), if_neg hne, if_pos hs,
    if_neg (not_le.mpr hgw)]

/-- C10: whenever the derived base WACC is positive and above the
perpetual growth rate, shares are positive, and the projected series
is non-empty, the orchestrated valuation's sensitivity grid exists and
its center cell (row 3, column 3) equals the base
`intrinsic_value_per_share`. -/
theorem C10_center_cell_refinement (c : Company) (h : Historical) (a : Assumptions)
    (e : ESGData)
    (hw : 0 < (calculate_wacc c a e).wacc)
    (hgw : a.perpetual_growth_rate < (calculate_wacc c a e).wacc)
    (hs : 0 < c.shares_outstanding)
    (hne : project_cash_flows a (calculate_historical_metrics h).ttm_fcf ≠ []) :
    ∃ grid, (calculate_dcf_valuation c h a e).sensitivity = some grid ∧
      (grid.matrix.getD 2 []).getD 2 none =
        some ((calculate_dcf_valuation c h a e).intrinsic_value_per_share) := by
  have hguard : ¬ (project_cash_flows a (calculate_historical_metrics h).ttm_fcf = [] ∨
      (calculate_wacc c a e).wacc ≤ 0) := by
    push_neg
    exact ⟨hne, hw⟩
  rcases hmx : calculate_sensitivity_matrix c a
      (project_cash_flows a (calculate_historical_metrics h).ttm_fcf)
      (calculate_wacc c a e).wacc with _ | grid
  · exfalso
    unfold calculate_sensitivity_matrix at hmx
    rw [if_neg hguard] at hmx
    exact Option.noConfusion hmx
  · refine ⟨grid, hmx, ?_⟩
    unfold calculate_sensitivity_matrix at hmx
    rw [if_neg hguard] at hmx
    have hg := Option.some.inj hmx
    subst hg
    simp only [List.map_cons, List.map_nil, List.getD_cons_succ, List.getD_cons_zero]
    exact center_cell_eq c a _ _ hne hw hgw hs

/-- C10 witness: on the simple one-year sample input the derived WACC
is `0.075`, above the `0.025` growth, and the center cell matches the
base intrinsic value per share. -/
theorem C10_witness :
    ∃ grid, (calculate_dcf_valuation exCompany exHistorical1 exAssumptionsStress exESG).sensitivity
        = some grid ∧
      (grid.matrix.getD 2 []).getD 2 none =
        some ((calculate_dcf_valuation exCompany exHistorical1 exAssumptionsStress
          exESG).intrinsic_value_per_share) :=
  C10_center_cell_refinement exCompany exHistorical1 exAssumptionsStress exESG
    (by norm_num [calculate_wacc, esgAdjustment, exCompany, exAssumptionsStress,
      exAssumptions, exESG])
    (by norm_num [calculate_wacc, esgAdjustment, exCompany, exAssumptionsStress,
      exAssumptions, exESG])
    (by norm_num [exCompany])
    (by norm_num [project_cash_flows, growthForYear, calculate_historical_metrics,
      pyLastSlice, exAssumptionsStress, exAssumptions, exHistorical1, List.range_succ])

end DCF
